import Mathlib

/-!
Shallow embedding of the lifecycle core of `ApiDeamon.java` (package
`com.galaksiya.api`): the startup sequence (`main`, `runAgents`,
`setConsumer`), the shutdown hook registered by `addShutDownHookProcess`
(its drain loop over `controlTopicMsgCountInBacklog`), the bounded pool
shutdown `awaitTerminationAfterShutdown`, and the admission-control wiring
`addRateLimitToPaths`.

External collaborators (the Pulsar client, the cryptographer session, the
process terminator `IysTerminator.quit`, the Jetty server) are modelled at
their interfaces, as oracles in an `Env` record; the daemon itself is
modelled as explicit state passing producing a trace of observable events.
The `executorService.execute` submissions of `runAgents` are run in
submission order (the claims settled here concern a single lambda body or
the crypto guard, not thread interleavings).
-/

namespace ApiDeamon

/-- The four topic identities that appear in `ApiDeamon.java`: the sync
response topic, the consent-search topic, the brand-search topic and the
status-report topic (names are produced by `TopicNameGenerator`, identity
is what matters here). -/
inductive Topic where
  | syncT
  | searchT
  | searchBrandT
  | statusReportT
  deriving DecidableEq, Repr

/-- Observable events emitted by the daemon model. `logFail`/`logSucceed`
are `OperationLog` outcomes tagged with the operation name; `quitCall` is a
call to the external terminator `IysTerminator.quit`; `subscribeCall` is a
`ConsumerBuilder.subscribe()` invocation; `storeAgentConsumer` and
`storeContextConsumer` record `agent.setConsumer(c)` and
`globalContext.setConsumer(c)` with `none` standing for a Java `null`;
`pollBacklog i` marks the i-th evaluation of the drain condition;
`consumerClose` would mark a `Consumer.close()` call (the hook never emits
one); the rest are self-describing. -/
inductive Event where
  | logFail (op : String)
  | logSucceed (op : String)
  | quitCall
  | subscribeCall (t : Topic)
  | storeAgentConsumer (c : Option Nat)
  | storeContextConsumer (c : Option Nat)
  | agentStart (t : Topic)
  | pollBacklog (i : Nat)
  | poolShutdown
  | poolAwait (secs : Nat)
  | poolShutdownNow
  | threadInterrupt
  | closeSessionCall
  | consumerClose (c : Nat)
  | contextHandlerShutdown
  | setIsRunning (b : Bool)
  | bindPort (p : Nat)
  | serverStartEvt
  deriving DecidableEq, Repr

/-- Pulsar admin error: `getMsgCountInCounter` may throw
`PulsarAdminException`. -/
inductive PulsarErr where
  | adminExn
  deriving DecidableEq, Repr

/-- Behaviour of `responseThreadPool.awaitTermination(60, SECONDS)`:
it returns `true` (all tasks finished), returns `false` (the 60 second
wait elapsed with tasks still running), or throws
`InterruptedException`. -/
inductive PoolBehavior where
  | terminated
  | timedOut
  | interrupted
  deriving DecidableEq, Repr

/-- Oracles for the external collaborators.
`hasSessionInit` is what `cryptographer.hasSession()` reads at startup;
`quitReturns` says whether the external terminator returns control to the
caller (the spec describes it as terminating the process, i.e. `false`);
`subscribeResult t` is the outcome of `builder.subscribe()` on topic `t`
(`none` models a thrown `PulsarClientException`);
`backlog i t` is what `getMsgCountInCounter` reports for topic `t` on the
i-th drain poll (`Except.error` models a thrown `PulsarAdminException`);
`poolWait` is the response-pool await behaviour. -/
structure Env where
  hasSessionInit : Bool
  quitReturns : Bool
  subscribeResult : Topic → Option Nat
  backlog : Nat → Topic → Except PulsarErr Nat
  poolWait : PoolBehavior

/-- Mutable daemon state threaded through the model: the `isRunning` flag,
whether the cryptographer currently has an open session, the consumer
handle stored into each agent by `agent.setConsumer`, the active-consumer
handles stored into the `GlobalContext`, whether `contextHandler` has been
assigned (non-null), and whether the process has been halted by the
terminator. -/
structure DaemonState where
  isRunning : Bool
  cryptoOpen : Bool
  agentConsumers : List (Topic × Option Nat)
  contextConsumers : List (Option Nat)
  contextHandlerSet : Bool
  halted : Bool
  deriving DecidableEq, Repr

/-- The state `main` starts from. -/
def initState (env : Env) : DaemonState :=
  { isRunning := true
    cryptoOpen := env.hasSessionInit
    agentConsumers := []
    contextConsumers := []
    contextHandlerSet := false
    halted := false }

/-! ## Admission control wiring (`addRateLimitToPaths`) -/

/-- `private static final String DELAY_MS = "delayMs";` -/
def DELAY_MS : String := "delayMs"

/-- `private static final String MAX_REQUESTS_PER_SEC = "maxRequestsPerSec";` -/
def MAX_REQUESTS_PER_SEC : String := "maxRequestsPerSec"

/-- `private static final String MAX_REQUEST_MS = "maxRequestMs";` -/
def MAX_REQUEST_MS : String := "maxRequestMs"

/-- A Jetty `FilterHolder` reduced to what the code sets on it: its init
parameters (string keyed, string valued, later `setInitParameter` calls
shadow earlier ones for the same key). -/
structure FilterHolder where
  initParams : List (String × String)
  deriving DecidableEq, Repr

/-- `holder.setInitParameter(key, value)`. -/
def FilterHolder.setInitParameter (h : FilterHolder) (k v : String) : FilterHolder :=
  ⟨(k, v) :: h.initParams⟩

/-- The single `FilterHolder` built in `addRateLimitToPaths`: a `DoSFilter`
with `maxRequestsPerSec` set to the configured rate limit, `maxRequestMs`
set to `"60000"`, and `delayMs` set to `"-1"`. -/
def rateLimitHolder (rateLimit : Int) : FilterHolder :=
  (((FilterHolder.mk []).setInitParameter MAX_REQUESTS_PER_SEC (toString rateLimit)).setInitParameter
      MAX_REQUEST_MS "60000").setInitParameter DELAY_MS "-1"

/-- `addRateLimitToPaths(context)`: appends, to the filter registrations of
the servlet context, one `(path, holder)` entry per `context.addFilter`
call, all sharing the one holder. -/
def addRateLimitToPaths (rateLimit : Int) (ctx : List (String × FilterHolder)) :
    List (String × FilterHolder) :=
  let holder := rateLimitHolder rateLimit
  ctx ++ [("/consent/*", holder), ("/kv/*", holder), ("/oauth/*", holder),
    ("/report/*", holder), ("/sp/*", holder), ("/retailers/*", holder),
    ("/brands/*", holder), ("/sps/*", holder), ("/recipients/*", holder),
    ("/integrator/*", holder), ("/public/*", holder), ("/government/*", holder)]

/-! ## Bounded pool shutdown (`awaitTerminationAfterShutdown`) -/

/-- `awaitTerminationAfterShutdown(executorService)`: call `shutdown()`,
then `awaitTermination(60, SECONDS)`; if it returns `false`, call
`shutdownNow()`; if it throws `InterruptedException`, log a failure, call
`shutdownNow()` and re-interrupt the current thread. -/
def awaitTerminationAfterShutdown : PoolBehavior → List Event
  | .terminated => [.poolShutdown, .poolAwait 60]
  | .timedOut => [.poolShutdown, .poolAwait 60, .poolShutdownNow]
  | .interrupted =>
      [.poolShutdown, .poolAwait 60, .logFail "awaitTerminationAfterShutdown",
        .poolShutdownNow, .threadInterrupt]

/-! ## Drain condition (`controlTopicMsgCountInBacklog`) -/

/-- The four topics whose backlog the drain condition reads, in the order
the source reads them. -/
def drainTopics : List Topic := [.searchBrandT, .searchT, .statusReportT, .syncT]

/-- `controlTopicMsgCountInBacklog()`: the conjunction, with Java `&&`
short-circuiting, of `getMsgCountInCounter("random", topic) == 0` over the
brand-search, consent-search, status-report and sync topics; any throwing
read propagates as `PulsarAdminException`. -/
def controlTopicMsgCountInBacklog (bk : Topic → Except PulsarErr Nat) :
    Except PulsarErr Bool :=
  match bk .searchBrandT with
  | .error e => .error e
  | .ok b1 =>
      if b1 == 0 then
        match bk .searchT with
        | .error e => .error e
        | .ok b2 =>
            if b2 == 0 then
              match bk .statusReportT with
              | .error e => .error e
              | .ok b3 =>
                  if b3 == 0 then
                    match bk .syncT with
                    | .error e => .error e
                    | .ok b4 => .ok (b4 == 0)
                  else .ok false
            else .ok false
      else .ok false

/-! ## The shutdown hook (`addShutDownHookProcess`) -/

/-- The `while (!isControlledMsgCounts)` loop of the shutdown hook, with
explicit fuel (the Java loop is unbounded). `i` numbers the drain polls so
the `Env.backlog` oracle can vary between iterations. Each iteration polls
the drain condition: on a thrown exception the failure is logged and the
loop retries; on `false` it retries; on `true` it shuts down the response
pool with `awaitTerminationAfterShutdown`, closes the crypto session if it
has one, logs success, and exits. Returns the final state, the emitted
events and whether the loop exited (fuel exhaustion returns `false`). -/
def drainLoop (env : Env) : Nat → Nat → DaemonState → DaemonState × List Event × Bool
  | 0, _, st => (st, [], false)
  | fuel + 1, i, st =>
      match controlTopicMsgCountInBacklog (env.backlog i) with
      | .error _ =>
          let r := drainLoop env fuel (i + 1) st
          (r.1, .pollBacklog i :: .logFail "isControlledMsgCountsAndCloseConsumerSession" :: r.2.1,
            r.2.2)
      | .ok false =>
          let r := drainLoop env fuel (i + 1) st
          (r.1, .pollBacklog i :: r.2.1, r.2.2)
      | .ok true =>
          ((if st.cryptoOpen then { st with cryptoOpen := false } else st),
            .pollBacklog i :: awaitTerminationAfterShutdown env.poolWait
              ++ (if st.cryptoOpen then [Event.closeSessionCall] else [])
              ++ [.logSucceed "isControlledMsgCountsAndCloseConsumerSession"], true)

/-- The body of the shutdown hook thread registered by
`addShutDownHookProcess`: set `isRunning` to `false`, shut down
`contextHandler` when it is non-null, then run the drain loop. Fuel bounds
the (unbounded) Java loop. -/
def shutdownHook (env : Env) (fuel : Nat) (st : DaemonState) :
    DaemonState × List Event × Bool :=
  let r := drainLoop env fuel 0 { st with isRunning := false }
  (r.1,
    .setIsRunning false
      :: (if st.contextHandlerSet then [Event.contextHandlerShutdown] else []) ++ r.2.1,
    r.2.2)

/-! ## Agent startup (`runAgents`, `setConsumer`) -/

/-- `setConsumer(log, builder, agent)`: `Consumer c = null; try { c =
builder.subscribe(); } catch (PulsarClientException e) { log.fail(e);
IysTerminator.quit(...); } agent.setConsumer(c);
globalContext.setConsumer(c);`. When the subscribe throws and the
terminator returns (`env.quitReturns`), the still-null handle is stored
into both the agent and the global context; when the terminator halts the
process, nothing after the `quit` call runs. -/
def setConsumer (env : Env) (t : Topic) (st : DaemonState) : DaemonState × List Event :=
  match env.subscribeResult t with
  | some c =>
      ({ st with
          agentConsumers := st.agentConsumers ++ [(t, some c)]
          contextConsumers := st.contextConsumers ++ [some c] },
        [.subscribeCall t, .storeAgentConsumer (some c), .storeContextConsumer (some c)])
  | none =>
      if env.quitReturns then
        ({ st with
            agentConsumers := st.agentConsumers ++ [(t, none)]
            contextConsumers := st.contextConsumers ++ [none] },
          [.subscribeCall t, .logFail "startAllApiSideAgent", .quitCall,
            .storeAgentConsumer none, .storeContextConsumer none])
      else
        ({ st with halted := true },
          [.subscribeCall t, .logFail "startAllApiSideAgent", .quitCall])

/-- Sequencing that models process termination: once `halted` is set by a
non-returning terminator call, no further code of the daemon runs. -/
def andThen (r : DaemonState × List Event) (k : DaemonState → DaemonState × List Event) :
    DaemonState × List Event :=
  if r.1.halted then r else ((k r.1).1, r.2 ++ (k r.1).2)

/-- One `executorService.execute` lambda of `runAgents`: construct the
agent, start its consume loop on the response pool
(`agent.consumeBuilder(responseThreadPool, builder)`), then
`setConsumer(log, builder, agent)`. -/
def agentJob (env : Env) (t : Topic) (st : DaemonState) : DaemonState × List Event :=
  ((setConsumer env t st).1, .agentStart t :: (setConsumer env t st).2)

/-- The topics for which `runAgents` builds a consumer and submits an
agent job, in submission order: sync response, consent search, brand
search. The status-report topic is not among them. -/
def agentTopics : List Topic := [.syncT, .searchT, .searchBrandT]

/-- `runAgents()`: if `cryptographer.hasSession()` is false, log the
failure and call the terminator; otherwise build the three consumer
builders (sync, consent-search, brand-search), submit the three agent jobs
to the executor (modelled in submission order), and log success. No job is
ever created for the status-report topic. -/
def runAgents (env : Env) (st : DaemonState) : DaemonState × List Event :=
  if !st.cryptoOpen then
    if env.quitReturns then
      (st, [.logFail "startAllApiSideAgent", .quitCall])
    else
      ({ st with halted := true }, [.logFail "startAllApiSideAgent", .quitCall])
  else
    andThen
      (andThen (andThen (agentJob env .syncT st) (agentJob env .searchT))
        (agentJob env .searchBrandT))
      (fun st4 => (st4, [.logSucceed "startAllApiSideAgent"]))

/-- `main(args)`: register the shutdown hook, run `runAgents()`, then (when
the process was not terminated) build the servlet context handler with the
rate-limited paths, bind port 9050 and start the Jetty server. -/
def mainDaemon (env : Env) : DaemonState × List Event :=
  andThen (runAgents env (initState env))
    (fun st =>
      ({ st with contextHandlerSet := true },
        [.bindPort 9050, .serverStartEvt]))

/-! ## Concrete fixtures for witnesses -/

/-- Fixture state: crypto session open, context handler assigned, not
halted. -/
def stOpen : DaemonState :=
  { isRunning := true, cryptoOpen := true, agentConsumers := [], contextConsumers := [],
    contextHandlerSet := true, halted := false }

/-- Fixture environment: session present, terminator halts, every
subscribe succeeds, every backlog read reports one unprocessed message. -/
def envBusy : Env :=
  { hasSessionInit := true, quitReturns := false, subscribeResult := fun _ => some 1,
    backlog := fun _ _ => .ok 1, poolWait := .terminated }

/-- Fixture environment: every backlog read throws. -/
def envThrow : Env := { envBusy with backlog := fun _ _ => .error .adminExn }

/-- Fixture environment: every backlog read reports zero. -/
def envIdle : Env := { envBusy with backlog := fun _ _ => .ok 0 }

/-! ## Helper lemmas -/

/-- The drain condition reads `.ok true` exactly when all four backlog
reads return zero. -/
theorem control_eq_ok_true_iff (bk : Topic → Except PulsarErr Nat) :
    controlTopicMsgCountInBacklog bk = .ok true
      ↔ (bk .searchBrandT = .ok 0 ∧ bk .searchT = .ok 0 ∧ bk .statusReportT = .ok 0
          ∧ bk .syncT = .ok 0) := by
  simp only [controlTopicMsgCountInBacklog]
  rcases h1 : bk .searchBrandT with e1 | b1
  · simp [h1]
  · by_cases hb1 : b1 = 0
    · subst hb1
      rcases h2 : bk .searchT with e2 | b2
      · simp [h2]
      · by_cases hb2 : b2 = 0
        · subst hb2
          rcases h3 : bk .statusReportT with e3 | b3
          · simp [h3]
          · by_cases hb3 : b3 = 0
            · subst hb3
              rcases h4 : bk .syncT with e4 | b4
              · simp [h4]
              · simp [h4]
            · simp [h3, hb3]
        · simp [h2, hb2]
    · simp [h1, hb1]

/-- The drain condition, phrased over the tracked topic list. -/
theorem control_eq_ok_true_iff_topics (bk : Topic → Except PulsarErr Nat) :
    controlTopicMsgCountInBacklog bk = .ok true ↔ ∀ t ∈ drainTopics, bk t = .ok 0 := by
  rw [control_eq_ok_true_iff]
  simp [drainTopics]

/-- The drain condition reads only the four tracked topics. -/
theorem control_depends_only_on_drainTopics (bk bk2 : Topic → Except PulsarErr Nat)
    (h : ∀ t ∈ drainTopics, bk t = bk2 t) :
    controlTopicMsgCountInBacklog bk = controlTopicMsgCountInBacklog bk2 := by
  simp only [controlTopicMsgCountInBacklog]
  rw [h .searchBrandT (by simp [drainTopics]), h .searchT (by simp [drainTopics]),
    h .statusReportT (by simp [drainTopics]), h .syncT (by simp [drainTopics])]

/-- If the drain loop exits, or ever shuts the response pool down, or ever
closes the crypto session, then some polled iteration read the drain
condition as true. -/
theorem drainLoop_exit (env : Env) :
    ∀ (fuel i : Nat) (st : DaemonState),
      ((drainLoop env fuel i st).2.2 = true
          ∨ Event.poolShutdown ∈ (drainLoop env fuel i st).2.1
          ∨ Event.closeSessionCall ∈ (drainLoop env fuel i st).2.1) →
      ∃ j, i ≤ j ∧ j < i + fuel ∧ controlTopicMsgCountInBacklog (env.backlog j) = .ok true := by
  intro fuel
  induction fuel with
  | zero => intro i st h; simp [drainLoop] at h
  | succ n ih =>
      intro i st h
      rcases hc : controlTopicMsgCountInBacklog (env.backlog i) with e | b
      · rw [drainLoop] at h
        simp only [hc] at h
        simp at h
        obtain ⟨j, hj1, hj2, hj3⟩ := ih (i + 1) st (by tauto)
        exact ⟨j, by omega, by omega, hj3⟩
      · cases b
        · rw [drainLoop] at h
          simp only [hc] at h
          simp at h
          obtain ⟨j, hj1, hj2, hj3⟩ := ih (i + 1) st (by tauto)
          exact ⟨j, by omega, by omega, hj3⟩
        · exact ⟨i, le_refl i, by omega, hc⟩

/-- While every polled iteration reads the drain condition as not-true,
the loop keeps the state unchanged, does not exit, never shuts the pool
down, never closes the session, and re-polls every iteration. -/
theorem drainLoop_stay (env : Env) :
    ∀ (fuel i : Nat) (st : DaemonState),
      (∀ j, i ≤ j → j < i + fuel → controlTopicMsgCountInBacklog (env.backlog j) ≠ .ok true) →
      (drainLoop env fuel i st).1 = st
      ∧ (drainLoop env fuel i st).2.2 = false
      ∧ Event.poolShutdown ∉ (drainLoop env fuel i st).2.1
      ∧ Event.closeSessionCall ∉ (drainLoop env fuel i st).2.1
      ∧ ∀ j, i ≤ j → j < i + fuel → Event.pollBacklog j ∈ (drainLoop env fuel i st).2.1 := by
  intro fuel
  induction fuel with
  | zero => intro i st _; simp [drainLoop]
  | succ n ih =>
      intro i st hno
      have hni : controlTopicMsgCountInBacklog (env.backlog i) ≠ .ok true :=
        hno i (le_refl i) (by omega)
      have ihr := ih (i + 1) st (fun j h1 h2 => hno j (by omega) (by omega))
      rcases hc : controlTopicMsgCountInBacklog (env.backlog i) with e | b
      · rw [drainLoop]
        simp only [hc]
        refine ⟨ihr.1, ihr.2.1, by simp [ihr.2.2.1], by simp [ihr.2.2.2.1], ?_⟩
        intro j hj1 hj2
        rcases Nat.eq_or_lt_of_le hj1 with h | h
        · simp [← h]
        · have hm := ihr.2.2.2.2 j (by omega) (by omega)
          simp [hm]
      · cases b
        · rw [drainLoop]
          simp only [hc]
          refine ⟨ihr.1, ihr.2.1, by simp [ihr.2.2.1], by simp [ihr.2.2.2.1], ?_⟩
          intro j hj1 hj2
          rcases Nat.eq_or_lt_of_le hj1 with h | h
          · simp [← h]
          · have hm := ihr.2.2.2.2 j (by omega) (by omega)
            simp [hm]
        · exact absurd hc hni

/-- The bounded pool shutdown neither closes the crypto session nor closes
any consumer handle. -/
theorem awaitTermination_no_session_or_consumer_close (b : PoolBehavior) :
    Event.closeSessionCall ∉ awaitTerminationAfterShutdown b
    ∧ ∀ c, Event.consumerClose c ∉ awaitTerminationAfterShutdown b := by
  cases b <;> refine ⟨by decide, ?_⟩ <;> intro c <;> simp [awaitTerminationAfterShutdown]

/-- If the crypto session is already closed when the drain loop runs, the
state is unchanged and no session close is emitted. -/
theorem drainLoop_closed_stays_closed (env : Env) :
    ∀ (fuel i : Nat) (st : DaemonState), st.cryptoOpen = false →
      (drainLoop env fuel i st).1 = st
      ∧ Event.closeSessionCall ∉ (drainLoop env fuel i st).2.1 := by
  intro fuel
  induction fuel with
  | zero => intro i st _; simp [drainLoop]
  | succ n ih =>
      intro i st hcl
      have ihr := ih (i + 1) st hcl
      rcases hc : controlTopicMsgCountInBacklog (env.backlog i) with e | b
      · rw [drainLoop]; simp only [hc]
        exact ⟨ihr.1, by simp [ihr.2]⟩
      · cases b
        · rw [drainLoop]; simp only [hc]
          exact ⟨ihr.1, by simp [ihr.2]⟩
        · rw [drainLoop]; simp only [hc]
          refine ⟨by simp [hcl], ?_⟩
          simp [hcl, (awaitTermination_no_session_or_consumer_close env.poolWait).1]

/-- When the drain loop exits, the crypto session is closed in the final
state. -/
theorem drainLoop_done_closes (env : Env) :
    ∀ (fuel i : Nat) (st : DaemonState), (drainLoop env fuel i st).2.2 = true →
      (drainLoop env fuel i st).1.cryptoOpen = false := by
  intro fuel
  induction fuel with
  | zero => intro i st h; simp [drainLoop] at h
  | succ n ih =>
      intro i st h
      rcases hc : controlTopicMsgCountInBacklog (env.backlog i) with e | b
      · rw [drainLoop] at h ⊢; simp only [hc] at h ⊢; exact ih (i + 1) st h
      · cases b
        · rw [drainLoop] at h ⊢; simp only [hc] at h ⊢; exact ih (i + 1) st h
        · rw [drainLoop]; simp only [hc]
          by_cases hcr : st.cryptoOpen <;> simp [hcr]

/-- The drain loop never emits a consumer close. -/
theorem drainLoop_no_consumer_close (env : Env) :
    ∀ (fuel i : Nat) (st : DaemonState) (c : Nat),
      Event.consumerClose c ∉ (drainLoop env fuel i st).2.1 := by
  intro fuel
  induction fuel with
  | zero => intro i st c; simp [drainLoop]
  | succ n ih =>
      intro i st c
      rcases hc : controlTopicMsgCountInBacklog (env.backlog i) with e | b
      · rw [drainLoop]; simp only [hc]; simp [ih (i + 1) st c]
      · cases b
        · rw [drainLoop]; simp only [hc]; simp [ih (i + 1) st c]
        · rw [drainLoop]; simp only [hc]
          by_cases hcr : st.cryptoOpen <;>
            simp [hcr, (awaitTermination_no_session_or_consumer_close env.poolWait).2 c]

/-- Each drain iteration starts by polling. -/
theorem drainLoop_head_poll (env : Env) (n i : Nat) (st : DaemonState) :
    ((drainLoop env (n + 1) i st).2.1).take 1 = [.pollBacklog i] := by
  rcases hc : controlTopicMsgCountInBacklog (env.backlog i) with e | b
  · rw [drainLoop]; simp only [hc]; rfl
  · cases b <;> (rw [drainLoop]; simp only [hc]; rfl)

/-- Events of a sequenced computation come from its first part or from the
continuation applied to the intermediate state. -/
theorem mem_andThen {e : Event} (r : DaemonState × List Event)
    (k : DaemonState → DaemonState × List Event) (h : e ∈ (andThen r k).2) :
    e ∈ r.2 ∨ e ∈ (k r.1).2 := by
  rw [andThen] at h
  by_cases hh : r.1.halted = true <;> simp [hh] at h <;> tauto

/-- `setConsumer` only subscribes to its own topic. -/
theorem subscribeCall_mem_setConsumer (env : Env) (t : Topic) (st : DaemonState) (t2 : Topic)
    (h : Event.subscribeCall t2 ∈ (setConsumer env t st).2) : t2 = t := by
  rcases hr : env.subscribeResult t with _ | c
  · rw [setConsumer] at h
    simp only [hr] at h
    by_cases hq : env.quitReturns = true <;> simp [hq] at h <;> exact h
  · rw [setConsumer] at h
    simp only [hr] at h
    simp at h
    exact h

/-- An agent job only subscribes to its own topic. -/
theorem subscribeCall_mem_agentJob (env : Env) (t : Topic) (st : DaemonState) (t2 : Topic)
    (h : Event.subscribeCall t2 ∈ (agentJob env t st).2) : t2 = t := by
  rw [agentJob] at h
  simp at h
  exact subscribeCall_mem_setConsumer env t st t2 h

/-- An agent job only starts an agent for its own topic. -/
theorem agentStart_mem_agentJob (env : Env) (t : Topic) (st : DaemonState) (t2 : Topic)
    (h : Event.agentStart t2 ∈ (agentJob env t st).2) : t2 = t := by
  rw [agentJob] at h
  simp at h
  rcases h with h | h
  · exact h
  · exfalso
    rcases hr : env.subscribeResult t with _ | c
    · rw [setConsumer] at h
      simp only [hr] at h
      by_cases hq : env.quitReturns = true <;> simp [hq] at h
    · rw [setConsumer] at h
      simp only [hr] at h
      simp at h

/-- `runAgents` subscribes only to the three agent topics. -/
theorem subscribeCall_mem_runAgents (env : Env) (st : DaemonState) (t : Topic)
    (h : Event.subscribeCall t ∈ (runAgents env st).2) : t ∈ agentTopics := by
  rw [runAgents] at h
  by_cases hc : st.cryptoOpen = true
  · simp only [hc, Bool.not_true, Bool.false_eq_true, if_false] at h
    rcases mem_andThen _ _ h with h | h
    · rcases mem_andThen _ _ h with h | h
      · rcases mem_andThen _ _ h with h | h
        · rw [subscribeCall_mem_agentJob env .syncT st t h]; simp [agentTopics]
        · rw [subscribeCall_mem_agentJob env .searchT _ t h]; simp [agentTopics]
      · rw [subscribeCall_mem_agentJob env .searchBrandT _ t h]; simp [agentTopics]
    · simp at h
  · simp only [Bool.not_eq_true] at hc
    simp only [hc, Bool.not_false, if_true] at h
    by_cases hq : env.quitReturns = true <;> simp [hq] at h

/-- `runAgents` starts agents only for the three agent topics. -/
theorem agentStart_mem_runAgents (env : Env) (st : DaemonState) (t : Topic)
    (h : Event.agentStart t ∈ (runAgents env st).2) : t ∈ agentTopics := by
  rw [runAgents] at h
  by_cases hc : st.cryptoOpen = true
  · simp only [hc, Bool.not_true, Bool.false_eq_true, if_false] at h
    rcases mem_andThen _ _ h with h | h
    · rcases mem_andThen _ _ h with h | h
      · rcases mem_andThen _ _ h with h | h
        · rw [agentStart_mem_agentJob env .syncT st t h]; simp [agentTopics]
        · rw [agentStart_mem_agentJob env .searchT _ t h]; simp [agentTopics]
      · rw [agentStart_mem_agentJob env .searchBrandT _ t h]; simp [agentTopics]
    · simp at h
  · simp only [Bool.not_eq_true] at hc
    simp only [hc, Bool.not_false, if_true] at h
    by_cases hq : env.quitReturns = true <;> simp [hq] at h

/-- The shutdown hook on an already-closed session emits no session
close. -/
theorem shutdownHook_closed_no_close (env : Env) (fuel : Nat) (st : DaemonState)
    (hcl : st.cryptoOpen = false) :
    Event.closeSessionCall ∉ (shutdownHook env fuel st).2.1 := by
  rw [shutdownHook]
  have h := (drainLoop_closed_stays_closed env fuel 0 { st with isRunning := false }
    (by simp [hcl])).2
  by_cases hch : st.contextHandlerSet = true <;> simp [hch] at h ⊢ <;> exact h

/-- The shutdown hook never closes a consumer handle. -/
theorem shutdownHook_no_consumer_close (env : Env) (fuel : Nat) (st : DaemonState) (c : Nat) :
    Event.consumerClose c ∉ (shutdownHook env fuel st).2.1 := by
  rw [shutdownHook]
  have h := drainLoop_no_consumer_close env fuel 0 { st with isRunning := false } c
  by_cases hch : st.contextHandlerSet = true <;> simp [hch] at h ⊢ <;> exact h

/-- Every registration appended by `addRateLimitToPaths` carries the one
shared holder. -/
theorem snd_of_mem_addRateLimitToPaths (rl : Int) (ctx : List (String × FilterHolder))
    (ph : String × FilterHolder) (h : ph ∈ (addRateLimitToPaths rl ctx).drop ctx.length) :
    ph.2 = rateLimitHolder rl := by
  rw [addRateLimitToPaths, List.drop_left] at h
  simp at h
  rcases h with h | h | h | h | h | h | h | h | h | h | h | h <;> rw [h]

end ApiDeamon

namespace ApiDeamon

/-! ## Claim theorems -/

/-- Claim C6: each of the twelve protected path prefixes is wrapped by the
admission-control filter, all sharing one rule set whose parameters are
`maxRequestsPerSec` = the configured rate limit, `maxRequestMs` = 60000,
and `delayMs` = -1 (reject immediately). -/
theorem addRateLimitToPaths_twelve_paths_one_ruleset (rateLimit : Int)
    (ctx : List (String × FilterHolder)) :
    (addRateLimitToPaths rateLimit ctx).map Prod.fst
        = ctx.map Prod.fst ++ ["/consent/*", "/kv/*", "/oauth/*", "/report/*", "/sp/*",
            "/retailers/*", "/brands/*", "/sps/*", "/recipients/*", "/integrator/*",
            "/public/*", "/government/*"]
    ∧ (∀ ph ∈ (addRateLimitToPaths rateLimit ctx).drop ctx.length,
        ph.2.initParams.lookup MAX_REQUESTS_PER_SEC = some (toString rateLimit)
          ∧ ph.2.initParams.lookup MAX_REQUEST_MS = some "60000"
          ∧ ph.2.initParams.lookup DELAY_MS = some "-1")
    ∧ ∀ ph1 ∈ (addRateLimitToPaths rateLimit ctx).drop ctx.length,
        ∀ ph2 ∈ (addRateLimitToPaths rateLimit ctx).drop ctx.length, ph1.2 = ph2.2 := by
  refine ⟨by simp [addRateLimitToPaths], ?_, ?_⟩
  · intro ph hph
    rw [snd_of_mem_addRateLimitToPaths rateLimit ctx ph hph]
    exact ⟨rfl, rfl, rfl⟩
  · intro ph1 h1 ph2 h2
    rw [snd_of_mem_addRateLimitToPaths rateLimit ctx ph1 h1,
      snd_of_mem_addRateLimitToPaths rateLimit ctx ph2 h2]

/-- Witness for C6 at rate limit 7 and the `/consent/*` entry. -/
theorem addRateLimitToPaths_twelve_paths_one_ruleset_witness :
    (rateLimitHolder 7).initParams.lookup MAX_REQUESTS_PER_SEC = some (toString (7 : Int))
      ∧ (rateLimitHolder 7).initParams.lookup MAX_REQUEST_MS = some "60000"
      ∧ (rateLimitHolder 7).initParams.lookup DELAY_MS = some "-1" :=
  (addRateLimitToPaths_twelve_paths_one_ruleset 7 []).2.1 ("/consent/*", rateLimitHolder 7)
    (by decide)

/-- Claim C4 (counterexample): `shutdownNow` is not invoked exactly when the
60-second wait elapses without completion — it is also invoked when the
wait throws `InterruptedException`, a case where the wait did not elapse
without all tasks completing. -/
theorem awaitTermination_forces_on_interrupt :
    Event.poolShutdownNow ∈ awaitTerminationAfterShutdown .interrupted
      ∧ PoolBehavior.interrupted ≠ .timedOut := by
  decide

/-- Claim C4 (amended): `awaitTerminationAfterShutdown` first requests
orderly shutdown, then waits up to 60 seconds; it invokes `shutdownNow`
exactly when the 60-second wait elapses without all tasks completing or the
wait is interrupted. -/
theorem awaitTerminationAfterShutdown_bounded_wait (b : PoolBehavior) :
    (awaitTerminationAfterShutdown b).take 2 = [.poolShutdown, .poolAwait 60]
    ∧ (Event.poolShutdownNow ∈ awaitTerminationAfterShutdown b
        ↔ (b = .timedOut ∨ b = .interrupted)) := by
  cases b <;> decide

/-- Claim C1: with no crypto session at startup (and the terminator
halting the process, as the spec describes), the daemon logs the failure
and stops: the whole observable trace is the failure log followed by the
terminator call — no agent job starts, no subscription happens, no
consumer handle is registered anywhere, and the port is never bound. -/
theorem no_session_fail_fast (env : Env) (hs : env.hasSessionInit = false)
    (hq : env.quitReturns = false) :
    (mainDaemon env).2 = [.logFail "startAllApiSideAgent", .quitCall]
    ∧ (mainDaemon env).1.halted = true
    ∧ (∀ t, Event.subscribeCall t ∉ (mainDaemon env).2)
    ∧ (∀ t, Event.agentStart t ∉ (mainDaemon env).2)
    ∧ Event.bindPort 9050 ∉ (mainDaemon env).2
    ∧ Event.serverStartEvt ∉ (mainDaemon env).2
    ∧ (mainDaemon env).1.contextConsumers = []
    ∧ (mainDaemon env).1.agentConsumers = [] := by
  simp [mainDaemon, runAgents, initState, andThen, hs, hq]

/-- Witness for C1: a concrete environment with no session. -/
theorem no_session_fail_fast_witness :
    (mainDaemon
        { hasSessionInit := false, quitReturns := false, subscribeResult := fun _ => some 1,
          backlog := fun _ _ => .ok 0, poolWait := .terminated }).2
      = [.logFail "startAllApiSideAgent", .quitCall] :=
  (no_session_fail_fast
      { hasSessionInit := false, quitReturns := false, subscribeResult := fun _ => some 1,
        backlog := fun _ _ => .ok 0, poolWait := .terminated }
      rfl rfl).1

/-- Claim C3: a failing consumer-subscribe call during agent startup logs
the error, calls the terminator, and (the terminator halting the process)
aborts the whole daemon. -/
theorem subscribe_failure_aborts_daemon (env : Env) (st : DaemonState)
    (hc : st.cryptoOpen = true) (hh : st.halted = false) (hq : env.quitReturns = false)
    (hf : ∃ t ∈ agentTopics, env.subscribeResult t = none) :
    (runAgents env st).1.halted = true
    ∧ Event.logFail "startAllApiSideAgent" ∈ (runAgents env st).2
    ∧ Event.quitCall ∈ (runAgents env st).2 := by
  simp only [agentTopics, List.mem_cons, List.not_mem_nil, or_false] at hf
  rcases hf with ⟨t, ht, hft⟩
  rcases ht with h | h | h <;> subst h
  · rcases h1 : env.subscribeResult .syncT with _ | c1
    · simp [runAgents, agentJob, setConsumer, andThen, hc, hh, hq, h1]
    · rw [h1] at hft; cases hft
  · rcases h1 : env.subscribeResult .syncT with _ | c1 <;>
      simp [runAgents, agentJob, setConsumer, andThen, hc, hh, hq, h1, hft]
  · rcases h1 : env.subscribeResult .syncT with _ | c1 <;>
      rcases h2 : env.subscribeResult .searchT with _ | c2 <;>
        simp [runAgents, agentJob, setConsumer, andThen, hc, hh, hq, h1, h2, hft]

/-- Witness for C3: the consent-search subscribe throws in a concrete
environment. -/
theorem subscribe_failure_aborts_daemon_witness :
    (runAgents
        { hasSessionInit := true, quitReturns := false,
          subscribeResult := fun t => if t = .searchT then none else some 1,
          backlog := fun _ _ => .ok 0, poolWait := .terminated }
        { isRunning := true, cryptoOpen := true, agentConsumers := [], contextConsumers := [],
          contextHandlerSet := false, halted := false }).1.halted = true :=
  (subscribe_failure_aborts_daemon
      { hasSessionInit := true, quitReturns := false,
        subscribeResult := fun t => if t = .searchT then none else some 1,
        backlog := fun _ _ => .ok 0, poolWait := .terminated }
      { isRunning := true, cryptoOpen := true, agentConsumers := [], contextConsumers := [],
        contextHandlerSet := false, halted := false }
      rfl rfl rfl ⟨.searchT, by decide, rfl⟩).1

/-- Claim C10: when the subscription throws and the terminator call
returns, `setConsumer` stores the still-null consumer handle into the agent
and into the global context, after having logged and called the
terminator. -/
theorem setConsumer_stores_null_when_quit_returns (env : Env) (t : Topic) (st : DaemonState)
    (hf : env.subscribeResult t = none) (hq : env.quitReturns = true) :
    (setConsumer env t st).2
        = [.subscribeCall t, .logFail "startAllApiSideAgent", .quitCall,
            .storeAgentConsumer none, .storeContextConsumer none]
    ∧ (setConsumer env t st).1.agentConsumers = st.agentConsumers ++ [(t, none)]
    ∧ (setConsumer env t st).1.contextConsumers = st.contextConsumers ++ [none] := by
  simp [setConsumer, hf, hq]

/-- Witness for C10: a concrete environment whose brand-search subscribe
throws and whose terminator returns. -/
theorem setConsumer_stores_null_when_quit_returns_witness :
    (setConsumer
        { hasSessionInit := true, quitReturns := true, subscribeResult := fun _ => none,
          backlog := fun _ _ => .ok 0, poolWait := .terminated }
        .searchBrandT
        { isRunning := true, cryptoOpen := true, agentConsumers := [], contextConsumers := [],
          contextHandlerSet := false, halted := false }).1.contextConsumers = [none] :=
  (setConsumer_stores_null_when_quit_returns
      { hasSessionInit := true, quitReturns := true, subscribeResult := fun _ => none,
        backlog := fun _ _ => .ok 0, poolWait := .terminated }
      .searchBrandT
      { isRunning := true, cryptoOpen := true, agentConsumers := [], contextConsumers := [],
        contextHandlerSet := false, halted := false }
      rfl rfl).2.2

/-- Claim C2: the coordinator proceeds past DRAINING — shuts the response
pool down or closes the crypto session, i.e. exits the drain loop — only
in an iteration where every tracked topic backlog reads zero
simultaneously; while some tracked topic backlog is nonzero on every
iteration, the loop never exits, never shuts the pool down, never closes
the session, and re-polls each iteration. -/
theorem drain_condition_gates_terminating (env : Env) (st : DaemonState) (fuel i : Nat) :
    (∀ bk, controlTopicMsgCountInBacklog bk = .ok true ↔ ∀ t ∈ drainTopics, bk t = .ok 0)
    ∧ ((Event.poolShutdown ∈ (drainLoop env fuel i st).2.1
          ∨ Event.closeSessionCall ∈ (drainLoop env fuel i st).2.1
          ∨ (drainLoop env fuel i st).2.2 = true) →
        ∃ j, i ≤ j ∧ j < i + fuel ∧ ∀ t ∈ drainTopics, env.backlog j t = .ok 0)
    ∧ ((∀ j, i ≤ j → j < i + fuel → ∃ t ∈ drainTopics, env.backlog j t ≠ .ok 0) →
        (drainLoop env fuel i st).2.2 = false
        ∧ Event.poolShutdown ∉ (drainLoop env fuel i st).2.1
        ∧ Event.closeSessionCall ∉ (drainLoop env fuel i st).2.1
        ∧ ∀ j, i ≤ j → j < i + fuel → Event.pollBacklog j ∈ (drainLoop env fuel i st).2.1) := by
  refine ⟨control_eq_ok_true_iff_topics, ?_, ?_⟩
  · intro h
    obtain ⟨j, hj1, hj2, hj3⟩ := drainLoop_exit env fuel i st (by tauto)
    exact ⟨j, hj1, hj2, (control_eq_ok_true_iff_topics _).mp hj3⟩
  · intro h
    have hs := drainLoop_stay env fuel i st (fun j h1 h2 hcon => by
      obtain ⟨t, ht, hne⟩ := h j h1 h2
      exact hne (((control_eq_ok_true_iff_topics _).mp hcon) t ht))
    exact ⟨hs.2.1, hs.2.2.1, hs.2.2.2.1, hs.2.2.2.2⟩

/-- Witness for C2: a broker reporting one unprocessed message on the
brand-search topic at every poll keeps the coordinator in the drain
loop. -/
theorem drain_condition_gates_terminating_witness :
    (drainLoop envBusy 2 0 stOpen).2.2 = false
    ∧ Event.poolShutdown ∉ (drainLoop envBusy 2 0 stOpen).2.1 :=
  have h := (drain_condition_gates_terminating envBusy stOpen 2 0).2.2
    (fun j _ _ => ⟨.searchBrandT, by simp [drainTopics], by simp [envBusy]⟩)
  ⟨h.1, h.2.1⟩

/-- Claim C5: the shutdown protocol closes the crypto session only if it
is open, and a second run after the first completed does not re-close the
already-closed session; neither run ever closes a consumer handle. -/
theorem shutdown_protocol_close_once (env env2 : Env) (st : DaemonState) (fuel fuel2 : Nat) :
    (st.cryptoOpen = false → Event.closeSessionCall ∉ (shutdownHook env fuel st).2.1)
    ∧ (∀ c, Event.consumerClose c ∉ (shutdownHook env fuel st).2.1)
    ∧ (∀ c, Event.consumerClose c ∉ (shutdownHook env2 fuel2 (shutdownHook env fuel st).1).2.1)
    ∧ ((shutdownHook env fuel st).2.2 = true →
        Event.closeSessionCall ∉ (shutdownHook env2 fuel2 (shutdownHook env fuel st).1).2.1) :=
  ⟨fun hcl => shutdownHook_closed_no_close env fuel st hcl,
    fun c => shutdownHook_no_consumer_close env fuel st c,
    fun c => shutdownHook_no_consumer_close env2 fuel2 _ c,
    fun hdone => shutdownHook_closed_no_close env2 fuel2 _
      (drainLoop_done_closes env fuel 0 _ hdone)⟩

/-- Witness for C5: after a completed first run on an idle broker, a
second run emits no session close. -/
theorem shutdown_protocol_close_once_witness :
    Event.closeSessionCall ∉ (shutdownHook envIdle 1 (shutdownHook envIdle 1 stOpen).1).2.1 :=
  (shutdown_protocol_close_once envIdle envIdle stOpen 1 1).2.2.2 (by decide)

/-- Claim C7: when evaluating the drain condition throws, the failure is
logged and the loop re-polls on the next iteration; the loop still only
exits after an iteration that actually observed the condition to hold. -/
theorem drain_poll_error_logged_retried (env : Env) (st : DaemonState) (fuel i : Nat)
    (h : controlTopicMsgCountInBacklog (env.backlog i) = .error .adminExn) :
    ((drainLoop env (fuel + 2) i st).2.1).take 3
        = [.pollBacklog i, .logFail "isControlledMsgCountsAndCloseConsumerSession",
            .pollBacklog (i + 1)]
    ∧ ((drainLoop env (fuel + 2) i st).2.2 = true →
        ∃ j, i < j ∧ j < i + (fuel + 2)
          ∧ controlTopicMsgCountInBacklog (env.backlog j) = .ok true) := by
  constructor
  · rw [show fuel + 2 = (fuel + 1) + 1 from rfl, drainLoop]
    simp only [h]
    rw [show ∀ (a b : Event) (l : List Event), List.take 3 (a :: b :: l) = a :: b :: List.take 1 l
      from fun a b l => rfl]
    rw [drainLoop_head_poll]
  · intro hdone
    rw [show fuel + 2 = (fuel + 1) + 1 from rfl, drainLoop] at hdone
    simp only [h] at hdone
    obtain ⟨j, hj1, hj2, hj3⟩ := drainLoop_exit env (fuel + 1) (i + 1) st (Or.inl hdone)
    exact ⟨j, by omega, by omega, hj3⟩

/-- Witness for C7: a broker whose backlog reads always throw produces the
logged failure and the retried poll. -/
theorem drain_poll_error_logged_retried_witness :
    ((drainLoop envThrow 2 0 stOpen).2.1).take 3
      = [.pollBacklog 0, .logFail "isControlledMsgCountsAndCloseConsumerSession",
          .pollBacklog 1] :=
  (drain_poll_error_logged_retried envThrow stOpen 0 0 rfl).1

/-- Claim C8: the shutdown hook first sets the running flag to false, then
shuts the HTTP context handler down, and every drain-condition poll comes
after both. -/
theorem hook_flag_and_ctx_before_first_poll (env : Env) (fuel : Nat) (st : DaemonState)
    (h : st.contextHandlerSet = true) :
    ((shutdownHook env fuel st).2.1).take 2 = [.setIsRunning false, .contextHandlerShutdown]
    ∧ ∀ k j, ((shutdownHook env fuel st).2.1).get? k = some (.pollBacklog j) → 2 ≤ k := by
  rw [shutdownHook]
  rw [if_pos h]
  constructor
  · rfl
  · intro k j hk
    rcases k with _ | _ | k
    · simp at hk
    · simp at hk
    · omega

/-- Witness for C8 with the context handler assigned. -/
theorem hook_flag_and_ctx_before_first_poll_witness :
    ((shutdownHook envIdle 1 stOpen).2.1).take 2
      = [.setIsRunning false, .contextHandlerShutdown] :=
  (hook_flag_and_ctx_before_first_poll envIdle 1 stOpen rfl).1

/-- Claim C9: the drain condition is a conjunction over exactly the four
hard-coded topics (brand search, consent search, status report, sync),
reading nothing else; `runAgents` subscribes and starts agents only for
the three agent topics, so the status-report topic is drained on although
no agent ever consumes it. -/
theorem drain_tracks_status_topic_never_consumed (bk bk2 : Topic → Except PulsarErr Nat)
    (env : Env) (st : DaemonState) :
    (controlTopicMsgCountInBacklog bk = .ok true ↔ ∀ t ∈ drainTopics, bk t = .ok 0)
    ∧ ((∀ t ∈ drainTopics, bk t = bk2 t) →
        controlTopicMsgCountInBacklog bk = controlTopicMsgCountInBacklog bk2)
    ∧ Topic.statusReportT ∈ drainTopics
    ∧ Topic.statusReportT ∉ agentTopics
    ∧ (∀ t, Event.subscribeCall t ∈ (runAgents env st).2 → t ∈ agentTopics)
    ∧ (∀ t, Event.agentStart t ∈ (runAgents env st).2 → t ∈ agentTopics) :=
  ⟨control_eq_ok_true_iff_topics bk, control_depends_only_on_drainTopics bk bk2,
    by decide, by decide, subscribeCall_mem_runAgents env st, agentStart_mem_runAgents env st⟩

/-- Witness for C9: an all-zero backlog satisfies the four-topic drain
condition. -/
theorem drain_tracks_status_topic_never_consumed_witness :
    controlTopicMsgCountInBacklog (fun _ => Except.ok 0) = .ok true :=
  ((drain_tracks_status_topic_never_consumed (fun _ => Except.ok 0) (fun _ => Except.ok 0)
      envBusy stOpen).1).mpr (fun _ _ => rfl)

end ApiDeamon
